import Mathlib

/-!
Verification of the SQL usage classification and scoring pipeline of
`DeltaTableOptimizer/v002/Step 1 - Build Query History Profile.py`
(class `QueryProfiler`).

The external SQL parsing library (`sql_metadata.Parser`) is abstracted as a
function `parse : String → Except String ParseResult`: an `Except.error e`
models `Parser(sqlString)` (or one of its properties) raising an exception
whose string form is `e`; `Except.ok r` models a successful structural parse,
with `r.columnsDict = none` modelling the case where accessing `columns_dict`
itself raises (the inner `except` branch of `getParsedFilteredColumnsinSQL`),
and each field of `ColumnsDict` modelling `columns_dict.get(...)`, which is
`None` when the key is absent.

Spark string semantics used by the pipeline SQL are embedded over `List Char`:
`splitParts s pat` models `split(s, pat)` for a literal (non-regex-special)
pattern, keeping trailing empty parts, exactly as Spark's `split` (Java
`split` with limit -1) does on such patterns.  Numeric columns are modelled
as `ℚ`, nullable columns as `Option ℚ` with the SQL null-propagating
operators (`nSub`, `nDiv`) and null-skipping aggregates (`sqlSumQ`,
`sqlAvgQ`, `sqlMinQ`, `sqlMaxQ`).
-/

/-- Model of Python `s.startswith(pat)` combined with consumption: if `pat`
is a leading run of `s`, return the remainder of `s`, else `none`. -/
def matchConsume : List Char → List Char → Option (List Char)
  | [], s => some s
  | _ :: _, [] => none
  | p :: ps, c :: cs => if p = c then matchConsume ps cs else none

/-- Fuel-indexed worker for `splitParts`; with fuel at least the length of
the subject string it scans left to right, splitting at each leftmost
non-overlapping occurrence of the pattern. -/
def splitPartsFuel (pat : List Char) : Nat → List Char → List Char → List (List Char)
  | 0, s, acc => [acc.reverse ++ s]
  | fuel + 1, s, acc =>
    match s with
    | [] => [acc.reverse]
    | c :: cs =>
      match matchConsume pat (c :: cs) with
      | some rest => acc.reverse :: splitPartsFuel pat fuel rest []
      | none => splitPartsFuel pat fuel cs (c :: acc)

/-- Model of Spark `split(s, pat)` for a literal pattern: all parts around
non-overlapping occurrences of `pat`, trailing empty parts kept. -/
def splitParts (s pat : List Char) : List (List Char) :=
  if pat = [] then [s] else splitPartsFuel pat (s.length + 1) s []

/-- Fuel-indexed worker for `countNonOverlap`. -/
def countNonOverlapFuel (pat : List Char) : Nat → List Char → Nat
  | 0, _ => 0
  | fuel + 1, s =>
    match s with
    | [] => 0
    | c :: cs =>
      match matchConsume pat (c :: cs) with
      | some rest => countNonOverlapFuel pat fuel rest + 1
      | none => countNonOverlapFuel pat fuel cs

/-- The number of non-overlapping occurrences of `pat` in `s` (leftmost
first), the count that `size(split(s, pat)) - 1` computes. -/
def countNonOverlap (pat s : List Char) : Nat :=
  if pat = [] then 0 else countNonOverlapFuel pat (s.length + 1) s

/-- Model of Python `s.find(pat) >= 0`: `pat` occurs as a contiguous
substring of `s` (always true for the empty pattern). -/
def containsSub : List Char → List Char → Bool
  | _, [] => true
  | [], _ :: _ => false
  | c :: cs, p :: ps => (matchConsume (p :: ps) (c :: cs)).isSome || containsSub cs (p :: ps)

/-- The spec's count of case-sensitive substring occurrences of `pat` in
`s`: the number of character positions of `s` at which `pat` matches.
Stated from the spec's words, for comparison with the code's count. -/
def specSubstringCount (s pat : String) : Nat :=
  ((List.range (s.toList.length + 1)).filter
    (fun i => pat.toList.isPrefixOf (s.toList.drop i))).length

/-- Model of `st[st.rindex('.')+1:]` with the `except` fallback: the part of
the column token after the last dot, or the whole token when it has no
dot. -/
def columnPartOf (st : String) : String :=
  let parts := splitParts st.toList ['.']
  if parts.length ≤ 1 then st else String.mk (parts.getLastD [])

/-- Model of `st[:st.rindex('.')] or None` with the `except` fallback: the
part of the column token before the last dot, `none` when the token has no
dot or that part is empty. -/
def tablePartOf (st : String) : Option String :=
  let parts := splitParts st.toList ['.']
  if parts.length ≤ 1 then none
  else
    let t := String.mk (List.intercalate ['.'] parts.dropLast)
    if t = "" then none else some t

/-- Model of `results.columns_dict.get("where")` / `"join"` / `"group_by"`:
each field is `none` when the key is absent from the dict. -/
structure ColumnsDict where
  whereCols : Option (List String)
  joinCols : Option (List String)
  groupByCols : Option (List String)
deriving DecidableEq, Repr

/-- Result of a successful `sql_metadata.Parser` run: the statement's tables
and, when accessing `columns_dict` does not raise, the clause-indexed
columns. -/
structure ParseResult where
  tables : List String
  columnsDict : Option ColumnsDict
deriving DecidableEq, Repr

/-- The abstract SQL parser: `Except.error e` models `Parser(sqlString)`
raising an exception rendered as the string `e`. -/
abbrev SqlParse := String → Except String ParseResult

/-- The flattened, de-duplicated list of column tokens from the WHERE, JOIN
and GROUP BY clauses (`flatted_final_cols` in the source). -/
def flattedCols (d : ColumnsDict) : List String :=
  (([d.whereCols, d.joinCols, d.groupByCols].filterMap id).flatten).dedup

/-- The attribution double loop of `getParsedFilteredColumnsinSQL` (lines
101-120): for each table and each column token, emit `tbl:column_part` when
the token contains the table name as a substring or the token has no table
part, and the column part is longer than one character. -/
def attributeColumns (tables flatted : List String) : List String :=
  tables.flatMap (fun tbl =>
    flatted.filterMap (fun st =>
      if (containsSub st.toList tbl.toList || (tablePartOf st).isNone) = true
          ∧ 1 < (columnPartOf st).length
      then some (tbl ++ ":" ++ columnPartOf st) else none))

/-- Embedding of the `getParsedFilteredColumnsinSQL` UDF: on parser failure
it returns the single error marker `ERROR: <msg>`; when `columns_dict`
raises it returns a `tbl:` marker per table; otherwise it runs the
attribution loop over the flattened WHERE/JOIN/GROUP-BY column tokens. -/
def getParsedFilteredColumnsinSQL (parse : SqlParse) (sqlString : String) : List String :=
  match parse sqlString with
  | Except.error e => ["ERROR: " ++ e]
  | Except.ok results =>
    match results.columnsDict with
    | none => results.tables.map (fun tbl => tbl ++ ":")
    | some d => attributeColumns results.tables (flattedCols d)

/-- Embedding of the `checkIfJoinColumn` UDF: 1 when `columnName` is a
member of `columns_dict.get("join")`, 0 on any failure (parser exception,
`columns_dict` raising, or the key being absent so that `in None`
raises). -/
def checkIfJoinColumn (parse : SqlParse) (sqlString columnName : String) : Int :=
  match parse sqlString with
  | Except.error _ => 0
  | Except.ok r =>
    match r.columnsDict with
    | none => 0
    | some d =>
      match d.joinCols with
      | none => 0
      | some cols => if columnName ∈ cols then 1 else 0

/-- Embedding of the `checkIfFilterColumn` UDF (membership in the WHERE
column list, 0 on any failure). -/
def checkIfFilterColumn (parse : SqlParse) (sqlString columnName : String) : Int :=
  match parse sqlString with
  | Except.error _ => 0
  | Except.ok r =>
    match r.columnsDict with
    | none => 0
    | some d =>
      match d.whereCols with
      | none => 0
      | some cols => if columnName ∈ cols then 1 else 0

/-- Embedding of the `checkIfGroupColumn` UDF (membership in the GROUP BY
column list, 0 on any failure). -/
def checkIfGroupColumn (parse : SqlParse) (sqlString columnName : String) : Int :=
  match parse sqlString with
  | Except.error _ => 0
  | Except.ok r =>
    match r.columnsDict with
    | none => 0
    | some d =>
      match d.groupByCols with
      | none => 0
      | some cols => if columnName ∈ cols then 1 else 0

/-- The spec's attribution rule (§4.2, stated from the spec's words, for
comparison with the code): attribute the token's column part to table `tbl`
iff the table part is non-empty and occurs as a substring of `tbl`, or the
table part is empty. -/
def specAttributesB (tbl st : String) : Bool :=
  match tablePartOf st with
  | some tp => containsSub tbl.toList tp.toList
  | none => true

/-- A row of `{database_name}.raw_query_history_statistics` (the columns the
profiling steps read; the timestamp and metrics columns are never used by
the aggregation SQL and are omitted). -/
structure RawQueryRow where
  query_id : String
  duration : ℚ
  query_text : String
  status : String
  statement_type : String
  rows_produced : ℚ
deriving DecidableEq, Repr

/-- A row of `delta_optimizer.query_summary_statistics` minus its
`query_id` key (the per-query aggregate of lines 365-385). -/
structure QueryStats where
  AverageQueryDuration : ℚ
  AverageRowsProduced : ℚ
  TotalQueryRuns : ℚ
  DurationTimesRuns : ℚ
deriving DecidableEq, Repr

/-- A row of `{database_name}.parsed_distinct_queries`. -/
structure ParsedQueryRow where
  query_id : String
  query_text : String
  profiled_columns : List String
deriving DecidableEq, Repr

/-- A row of the `step_2` CTE of the `pre_stats_df` query (lines 405-425):
the exploded reference split into table and column, joined (LEFT) with the
execution statistics; `stats = none` models the null columns of a
non-matching left join. -/
structure Step2Row where
  TableName : String
  ColumnName : Option String
  query_text : String
  query_id : String
  stats : Option QueryStats
deriving DecidableEq, Repr

/-- A row of `{database_name}.query_column_statistics` (the `withUseFlags`
view): a `Step2Row` plus the occurrence count and the three usage flags. -/
structure QueryColStatRow where
  TableName : String
  ColumnName : Option String
  query_text : String
  query_id : String
  stats : Option QueryStats
  NumberOfColumnOccurrences : Option Int
  isUsedInJoin : Int
  isUsedInFilter : Int
  isUsedInGroup : Int
deriving DecidableEq, Repr

/-- A row of `{database_name}.read_statistics_column_level_summary`
(lines 440-467); the aggregates that SQL makes nullable are `Option ℚ`. -/
structure ColSummaryRow where
  TableName : String
  ColumnName : String
  isUsedInJoin : Int
  isUsedInFilter : Int
  isUsedInGroup : Int
  NumberOfQueriesUsedInJoin : Int
  NumberOfQueriesUsedInFilter : Int
  NumberOfQueriesUsedInGroup : Int
  QueryReferenceCount : ℚ
  RawTotalRuntime : Option ℚ
  AvgQueryDuration : Option ℚ
  TotalColumnOccurrencesForAllQueries : Option ℚ
  AvgColumnOccurrencesInQueryies : Option ℚ
deriving DecidableEq, Repr

/-- A row of `{database_name}.read_statistics_scaled_results`
(lines 470-505): the summary row plus the five min-max-scaled fields. -/
structure ScaledResultRow where
  base : ColSummaryRow
  QueryReferenceCountScaled : ℚ
  RawTotalRuntimeScaled : ℚ
  AvgQueryDurationScaled : ℚ
  TotalColumnOccurrencesForAllQueriesScaled : ℚ
  AvgColumnOccurrencesInQueriesScaled : ℚ
deriving DecidableEq, Repr

/-- SQL `SUM` over the non-null values of a group (null when the group has
no non-null value). -/
def sqlSumQ (l : List ℚ) : Option ℚ :=
  match l with
  | [] => none
  | _ => some l.sum

/-- SQL `AVG` over the non-null values of a group. -/
def sqlAvgQ (l : List ℚ) : Option ℚ :=
  match l with
  | [] => none
  | _ => some (l.sum / (l.length : ℚ))

/-- SQL `MIN` over the non-null values of a group. -/
def sqlMinQ (l : List ℚ) : Option ℚ :=
  match l with
  | [] => none
  | x :: xs => some (xs.foldl min x)

/-- SQL `MAX` over the non-null values of a group. -/
def sqlMaxQ (l : List ℚ) : Option ℚ :=
  match l with
  | [] => none
  | x :: xs => some (xs.foldl max x)

/-- SQL `MAX` over a group of the 0/1 usage flags. -/
def flagMax (l : List Int) : Int := l.foldl max 0

/-- Null-propagating SQL subtraction over nullable numbers. -/
def nSub : Option ℚ → Option ℚ → Option ℚ
  | some a, some b => some (a - b)
  | _, _ => none

/-- Null-propagating SQL division over nullable numbers; division by zero
yields null, as in Spark SQL. -/
def nDiv : Option ℚ → Option ℚ → Option ℚ
  | some a, some b => if b = 0 then none else some (a / b)
  | _, _ => none

/-- SQL `coalesce(x, 0)`. -/
def coalesce0 (x : Option ℚ) : ℚ := x.getD 0

/-- `split(explodedCols, ":")[0]` — the table name of an exploded
reference. -/
def splitColonTable (s : String) : String :=
  String.mk ((splitParts s.toList [':']).headD [])

/-- `split(explodedCols, ":")[1]` — the column name of an exploded
reference, null when the reference has no `:`-separated second part. -/
def splitColonColumn (s : String) : Option String :=
  ((splitParts s.toList [':']).drop 1).head?.map String.mk

/-- `size(split(query_text, ColumnName)) - 1` (line 423), the
`NumberOfColumnOccurrences` expression for a non-null column name. -/
def numberOfColumnOccurrences (queryText colName : String) : Int :=
  ((splitParts queryText.toList colName.toList).length : Int) - 1

/-- Lookup of the `query_summary_statistics` row for a `query_id`
(the `USING (query_id)` join key). -/
def lookupStats (stats : List (String × QueryStats)) (qid : String) : Option QueryStats :=
  (stats.find? (fun p => p.1 = qid)).map (fun p => p.2)

/-- Lines 365-385: `CREATE OR REPLACE TABLE delta_optimizer.query_summary_statistics`
— group the raw statistics rows with status FINISHED or CANCELED and
statement type SELECT by `query_id`, computing `AVG(duration)`,
`AVG(rows_produced)`, `COUNT(*)` and `AVG(duration)*COUNT(*)`. -/
def computeQuerySummary (raw : List RawQueryRow) : List (String × QueryStats) :=
  let rows := raw.filter (fun r =>
    (r.status = "FINISHED" ∨ r.status = "CANCELED") ∧ r.statement_type = "SELECT")
  ((rows.map (fun r => r.query_id)).dedup).map (fun qid =>
    let g := rows.filter (fun r => r.query_id = qid)
    let n : ℚ := (g.length : ℚ)
    let avgD := (g.map (fun r => r.duration)).sum / n
    let avgR := (g.map (fun r => r.rows_produced)).sum / n
    (qid, ⟨avgD, avgR, n, avgD * n⟩))

/-- Lines 388-391: the `new_parsed` view — distinct `(query_id, query_text)`
pairs of the raw statistics table, each with `profiled_columns` freshly
computed by the extractor UDF. -/
def newParsed (parse : SqlParse) (raw : List RawQueryRow) : List ParsedQueryRow :=
  ((raw.map (fun r => (r.query_id, r.query_text))).dedup).map (fun p =>
    ⟨p.1, p.2, getParsedFilteredColumnsinSQL parse p.2⟩)

/-- Lines 394-401: `MERGE INTO parsed_distinct_queries ... ON source.query_id
= target.query_id WHEN MATCHED THEN UPDATE SET target.query_text =
source.query_text WHEN NOT MATCHED THEN INSERT (query_id, query_text,
profiled_columns)`.  Note the MATCHED branch updates only `query_text`. -/
def mergeParsedQueries (target source : List ParsedQueryRow) : List ParsedQueryRow :=
  target.map (fun t =>
    match source.find? (fun s => s.query_id = t.query_id) with
    | some s => { t with query_text := s.query_text }
    | none => t)
  ++ source.filter (fun s => target.all (fun t => ¬ (t.query_id = s.query_id)))

/-- Lines 406-411: the `exploded_parsed_cols` CTE — `SELECT DISTINCT
explode(profiled_columns), query_id, query_text FROM parsed_distinct_queries`. -/
def explodedParsedCols (pq : List ParsedQueryRow) : List (String × String × String) :=
  (pq.flatMap (fun q =>
    q.profiled_columns.map (fun ec => (ec, q.query_id, q.query_text)))).dedup

/-- Lines 413-420: one `step_2` row from an exploded reference — split the
reference on `:` and LEFT JOIN with the statistics summary by `query_id`. -/
def step2Of (stats : List (String × QueryStats)) (e : String × String × String) : Step2Row :=
  ⟨splitColonTable e.1, splitColonColumn e.1, e.2.2, e.2.1, lookupStats stats e.2.1⟩

/-- Lines 422-428: add `NumberOfColumnOccurrences` and the three usage-flag
columns (each UDF is invoked on the concatenation `TableName.ColumnName`,
which is null when `ColumnName` is null, making each flag 0). -/
def flagsOf (parse : SqlParse) (r : Step2Row) : QueryColStatRow :=
  { TableName := r.TableName
    ColumnName := r.ColumnName
    query_text := r.query_text
    query_id := r.query_id
    stats := r.stats
    NumberOfColumnOccurrences :=
      r.ColumnName.map (fun c => numberOfColumnOccurrences r.query_text c)
    isUsedInJoin :=
      match r.ColumnName with
      | none => 0
      | some c => checkIfJoinColumn parse r.query_text (r.TableName ++ "." ++ c)
    isUsedInFilter :=
      match r.ColumnName with
      | none => 0
      | some c => checkIfFilterColumn parse r.query_text (r.TableName ++ "." ++ c)
    isUsedInGroup :=
      match r.ColumnName with
      | none => 0
      | some c => checkIfGroupColumn parse r.query_text (r.TableName ++ "." ++ c) }

/-- Lines 405-436: the `query_column_statistics` table (`withUseFlags`). -/
def computeQueryColStats (parse : SqlParse) (pq : List ParsedQueryRow)
    (stats : List (String × QueryStats)) : List QueryColStatRow :=
  (((explodedParsedCols pq).map (step2Of stats)).dedup).map (flagsOf parse)

/-- The `WHERE length(ColumnName) >= 1` filter of the summary query
(null column names fail an SQL comparison and are filtered out). -/
def colNameKept (c : Option String) : Bool :=
  match c with
  | some s => 1 ≤ s.length
  | none => false

/-- The aggregate row of the summary query for the group of `rows` keyed by
`(t, c)`. -/
def summaryRowOf (t c : String) (g : List QueryColStatRow) : ColSummaryRow :=
  { TableName := t
    ColumnName := c
    isUsedInJoin := flagMax (g.map (fun r => r.isUsedInJoin))
    isUsedInFilter := flagMax (g.map (fun r => r.isUsedInFilter))
    isUsedInGroup := flagMax (g.map (fun r => r.isUsedInGroup))
    NumberOfQueriesUsedInJoin := (g.map (fun r => r.isUsedInJoin)).sum
    NumberOfQueriesUsedInFilter := (g.map (fun r => r.isUsedInFilter)).sum
    NumberOfQueriesUsedInGroup := (g.map (fun r => r.isUsedInGroup)).sum
    QueryReferenceCount := (((g.map (fun r => r.query_id)).dedup).length : ℚ)
    RawTotalRuntime :=
      sqlSumQ (g.filterMap (fun r => r.stats.map (fun s => s.DurationTimesRuns)))
    AvgQueryDuration :=
      sqlAvgQ (g.filterMap (fun r => r.stats.map (fun s => s.AverageQueryDuration)))
    TotalColumnOccurrencesForAllQueries :=
      sqlSumQ (g.filterMap (fun r => r.NumberOfColumnOccurrences.map (fun n => (n : ℚ))))
    AvgColumnOccurrencesInQueryies :=
      sqlAvgQ (g.filterMap (fun r => r.NumberOfColumnOccurrences.map (fun n => (n : ℚ)))) }

/-- The `test_q` CTE of the summary query: the `query_column_statistics`
rows surviving `WHERE length(ColumnName) >= 1` (the same filter is repeated
inside `step_2`; it is idempotent). -/
def keptColStats (rows : List QueryColStatRow) : List QueryColStatRow :=
  rows.filter (fun r => colNameKept r.ColumnName)

/-- The distinct `(TableName, ColumnName)` groups of the summary query. -/
def summaryGroupKeys (rows : List QueryColStatRow) : List (String × String) :=
  ((keptColStats rows).filterMap (fun r =>
    r.ColumnName.map (fun c => (r.TableName, c)))).dedup

/-- Lines 440-467: `read_statistics_column_level_summary` — filter out rows
whose `ColumnName` is null or empty, then group by `(TableName, ColumnName)`
and aggregate. -/
def computeColSummary (rows : List QueryColStatRow) : List ColSummaryRow :=
  (summaryGroupKeys rows).map (fun k =>
    summaryRowOf k.1 k.2
      ((keptColStats rows).filter (fun r => r.TableName = k.1 ∧ r.ColumnName = some k.2)))

/-- The `(TableName, ColumnName)` keys of the summary rows. -/
def summaryKeys (rows : List ColSummaryRow) : List (String × String) :=
  rows.map (fun r => (r.TableName, r.ColumnName))

/-- The non-null values of one scaled field within the partition of summary
rows sharing `TableName = t` (the input of the per-table `min`/`max`
aggregations of lines 479-487). -/
def partitionVals (rows : List ColSummaryRow) (t : String)
    (f : ColSummaryRow → Option ℚ) : List ℚ :=
  (rows.filter (fun r => r.TableName = t)).filterMap f

/-- Lines 491-496: one scaled column —
`coalesce((value - min) / (max - min), 0)` with the partition min and max
joined back onto the row by `TableName`. -/
def scaleField (rows : List ColSummaryRow) (r : ColSummaryRow)
    (f : ColSummaryRow → Option ℚ) : ℚ :=
  coalesce0 (nDiv (nSub (f r) (sqlMinQ (partitionVals rows r.TableName f)))
    (nSub (sqlMaxQ (partitionVals rows r.TableName f))
      (sqlMinQ (partitionVals rows r.TableName f))))

/-- Lines 470-505: `read_statistics_scaled_results` — every summary row plus
the five min-max-scaled fields, scaled within its `TableName` partition. -/
def computeScaled (rows : List ColSummaryRow) : List ScaledResultRow :=
  rows.map (fun r =>
    ⟨r,
      scaleField rows r (fun a => some a.QueryReferenceCount),
      scaleField rows r (fun a => a.RawTotalRuntime),
      scaleField rows r (fun a => a.AvgQueryDuration),
      scaleField rows r (fun a => a.TotalColumnOccurrencesForAllQueries),
      scaleField rows r (fun a => a.AvgColumnOccurrencesInQueryies)⟩)

/-- The persisted tables touched by one `build_query_history_profile` run,
for the default configuration `database_name = "delta_optimizer"` (the one
the notebook's `__main__` uses), under which the hardcoded
`delta_optimizer` reads and writes and the `{database_name}` reads and
writes all address the same database. -/
structure PipelineState where
  rawStats : List RawQueryRow
  logEntries : Nat
  querySummary : List (String × QueryStats)
  parsedQueries : List ParsedQueryRow
  queryColStats : List QueryColStatRow
  colSummary : List ColSummaryRow
  scaledResults : List ScaledResultRow
deriving Repr

/-- Step 1 (lines 345-358): `INSERT INTO raw_query_history_statistics ...
WHERE statement_type = 'SELECT'` — append the fetched query records. -/
def stepInsertRaw (fetched : List RawQueryRow) (s : PipelineState) : PipelineState :=
  { s with rawStats := s.rawStats ++ fetched.filter (fun r => r.statement_type = "SELECT") }

/-- Step 2 (line 361): append one row to the query history log. -/
def stepInsertLog (s : PipelineState) : PipelineState :=
  { s with logEntries := s.logEntries + 1 }

/-- Step 3 (lines 365-385): replace `query_summary_statistics`. -/
def stepPublishQuerySummary (s : PipelineState) : PipelineState :=
  { s with querySummary := computeQuerySummary s.rawStats }

/-- Step 4 (lines 388-401): parse the distinct queries and MERGE them into
`parsed_distinct_queries`. -/
def stepMergeParsed (parse : SqlParse) (s : PipelineState) : PipelineState :=
  { s with parsedQueries := mergeParsedQueries s.parsedQueries (newParsed parse s.rawStats) }

/-- Step 5 (lines 405-436): replace `query_column_statistics`. -/
def stepPublishQueryColStats (parse : SqlParse) (s : PipelineState) : PipelineState :=
  { s with queryColStats := computeQueryColStats parse s.parsedQueries s.querySummary }

/-- Step 6 (lines 440-467): replace `read_statistics_column_level_summary`. -/
def stepPublishColSummary (s : PipelineState) : PipelineState :=
  { s with colSummary := computeColSummary s.queryColStats }

/-- Step 7 (lines 470-505): replace `read_statistics_scaled_results`. -/
def stepPublishScaled (s : PipelineState) : PipelineState :=
  { s with scaledResults := computeScaled s.colSummary }

/-- The seven state-changing steps of the `try` block of
`build_query_history_profile`, in program order. -/
def pipelineSteps (parse : SqlParse) (fetched : List RawQueryRow) :
    List (PipelineState → PipelineState) :=
  [stepInsertRaw fetched, stepInsertLog, stepPublishQuerySummary,
    stepMergeParsed parse, stepPublishQueryColStats parse,
    stepPublishColSummary, stepPublishScaled]

/-- The state after the first `k` steps complete — the persisted state a
run leaves behind when step `k+1` raises (each `CREATE OR REPLACE` /
`INSERT` / `MERGE` is itself atomic). -/
def runPrefix (parse : SqlParse) (fetched : List RawQueryRow) (k : Nat)
    (s : PipelineState) : PipelineState :=
  ((pipelineSteps parse fetched).take k).foldl (fun st f => f st) s

/-- One complete successful `build_query_history_profile` run over the
fetched batch. -/
def runAll (parse : SqlParse) (fetched : List RawQueryRow) (s : PipelineState) : PipelineState :=
  runPrefix parse fetched 7 s

/-- The number of raw statistics rows recorded for a `query_id`
(`COUNT(*)` of its group). -/
def countRows (raw : List RawQueryRow) (qid : String) : Nat :=
  (raw.filter (fun r => r.query_id = qid)).length

/-- The table identifier the summary-building SQL of lines 365-385 writes:
the statement names `delta_optimizer.query_summary_statistics` literally,
ignoring the configured database name. -/
def querySummaryWriteTarget (_dbName : String) : String :=
  "delta_optimizer.query_summary_statistics"

/-- The table identifier the aggregation SQL of line 419 reads:
`{self.database_name}.query_summary_statistics`. -/
def querySummaryReadSource (dbName : String) : String :=
  dbName ++ ".query_summary_statistics"

/-- A store of published summary tables keyed by their qualified name. -/
def TableStore := String → Option (List (String × QueryStats))

/-- Publishing the freshly computed summary under the write target of
lines 365-385. -/
def publishQuerySummaryAt (dbName : String) (store : TableStore)
    (content : List (String × QueryStats)) : TableStore :=
  fun k => if k = querySummaryWriteTarget dbName then some content else store k

/-- The summary table the statistics join of line 419 consumes. -/
def readStatsForJoin (dbName : String) (store : TableStore) :
    Option (List (String × QueryStats)) :=
  store (querySummaryReadSource dbName)

/-- A parser stub that always fails, rendering the exception as `boom`. -/
def parseErrStub : SqlParse := fun _ => Except.error "boom"

/-- A parser stub: one table `tab`, one unqualified WHERE column `co`. -/
def parseWhereStub : SqlParse :=
  fun _ => Except.ok ⟨["tab"], some ⟨some ["co"], none, none⟩⟩

/-- A parser stub: one table `t1`, one unqualified WHERE column `ab`. -/
def parseT1Stub : SqlParse :=
  fun _ => Except.ok ⟨["t1"], some ⟨some ["ab"], none, none⟩⟩

/-- A parser stub: one table `t`, one unqualified WHERE column `bb`. -/
def parseBbStub : SqlParse :=
  fun _ => Except.ok ⟨["t"], some ⟨some ["bb"], none, none⟩⟩

/-- A one-query fetched batch: a finished SELECT with duration 10. -/
def fetchedOne : List RawQueryRow :=
  [⟨"q1", 10, "SELECT ab FROM t1", "FINISHED", "SELECT", 5⟩]

/-- The empty persisted state (all tables empty). -/
def state0 : PipelineState := ⟨[], 0, [], [], [], [], []⟩

example : splitParts "a.b.c".toList ['.'] = [['a'], ['b'], ['c']] := by decide
example : splitParts "ab".toList "ab".toList = [[], []] := by decide
example : splitParts "tbl:".toList [':'] = [['t', 'b', 'l'], []] := by decide
example : columnPartOf "a.b.c" = "c" := by decide
example : tablePartOf "a.b.c" = some "a.b" := by decide
example : tablePartOf ".x" = none := by decide
example : tablePartOf "x" = none := by decide
example : columnPartOf "x." = "" := by decide
example : containsSub "ord.cust_id".toList "orders".toList = false := by decide
example : containsSub "orders".toList "ord".toList = true := by decide
example : countNonOverlap "aa".toList "aaa".toList = 1 := by decide
example : specSubstringCount "aaa" "aa" = 2 := by decide
example : attributeColumns ["orders"] ["ord.cust_id"] = [] := by decide
example : attributeColumns ["x1"] ["foo.x1bar"] = ["x1:x1bar"] := by decide
example : attributeColumns ["tab"] ["co"] = ["tab:co"] := by decide

/-! ### Helper lemmas -/

theorem splitPartsFuel_count (pat : List Char) :
    ∀ (fuel : Nat) (s acc : List Char),
      (splitPartsFuel pat fuel s acc).length = countNonOverlapFuel pat fuel s + 1 := by
  intro fuel
  induction fuel with
  | zero => intro s acc; rfl
  | succ n ih =>
    intro s acc
    cases s with
    | nil => rfl
    | cons c cs =>
      unfold splitPartsFuel countNonOverlapFuel
      cases h : matchConsume pat (c :: cs) with
      | some rest => simp [h, ih rest []]
      | none => simp [h, ih cs (c :: acc)]

theorem splitParts_length (s pat : List Char) :
    (splitParts s pat).length = countNonOverlap pat s + 1 := by
  unfold splitParts countNonOverlap
  by_cases h : pat = []
  · simp [h]
  · simp [h, splitPartsFuel_count]

theorem matchConsume_single (ch c : Char) (cs : List Char) :
    matchConsume [ch] (c :: cs) = if ch = c then some cs else none := rfl

theorem splitPartsFuel_single_notMem (ch : Char) :
    ∀ (fuel : Nat) (s acc : List Char), ch ∉ s →
      splitPartsFuel [ch] fuel s acc = [acc.reverse ++ s] := by
  intro fuel
  induction fuel with
  | zero => intro s acc _; rfl
  | succ n ih =>
    intro s acc hs
    cases s with
    | nil => simp [splitPartsFuel]
    | cons c cs =>
      have hcc : ¬ ch = c := fun h => hs (h ▸ List.mem_cons_self c cs)
      have h1 : matchConsume [ch] (c :: cs) = none := by
        rw [matchConsume_single, if_neg hcc]
      simp only [splitPartsFuel, h1]
      rw [ih cs (c :: acc) (fun hm => hs (List.mem_cons_of_mem c hm))]
      simp

theorem splitParts_single_notMem (s : List Char) (ch : Char) (h : ch ∉ s) :
    splitParts s [ch] = [s] := by
  unfold splitParts
  simp [splitPartsFuel_single_notMem ch (s.length + 1) s [] h]

theorem columnPartOf_noDot (st : String) (h : ('.' : Char) ∉ st.toList) :
    columnPartOf st = st := by
  have hsp : splitParts st.data ['.'] = [st.data] :=
    splitParts_single_notMem st.data '.' h
  simp [columnPartOf, hsp]

theorem tablePartOf_noDot (st : String) (h : ('.' : Char) ∉ st.toList) :
    tablePartOf st = none := by
  have hsp : splitParts st.data ['.'] = [st.data] :=
    splitParts_single_notMem st.data '.' h
  simp [tablePartOf, hsp]

theorem attributeColumns_mem_intro (tables flatted : List String) (tbl st : String)
    (h1 : tbl ∈ tables) (h2 : st ∈ flatted)
    (h3 : containsSub st.toList tbl.toList = true ∨ tablePartOf st = none)
    (h4 : 1 < (columnPartOf st).length) :
    (tbl ++ ":" ++ columnPartOf st) ∈ attributeColumns tables flatted := by
  unfold attributeColumns
  apply List.mem_flatMap.mpr
  refine ⟨tbl, h1, List.mem_filterMap.mpr ⟨st, h2, ?_⟩⟩
  have hcond : (containsSub st.toList tbl.toList || (tablePartOf st).isNone) = true := by
    rcases h3 with h | h
    · rw [h]; rfl
    · rw [h]; exact Bool.or_true _
  rw [if_pos ⟨hcond, h4⟩]

theorem attributeColumns_mem_elim (tables flatted : List String) (ref : String)
    (h : ref ∈ attributeColumns tables flatted) :
    ∃ tbl st, tbl ∈ tables ∧ st ∈ flatted ∧ ref = tbl ++ ":" ++ columnPartOf st ∧
      (containsSub st.toList tbl.toList = true ∨ tablePartOf st = none) ∧
      1 < (columnPartOf st).length := by
  unfold attributeColumns at h
  obtain ⟨tbl, htbl, hm⟩ := List.mem_flatMap.mp h
  obtain ⟨st, hst, hsome⟩ := List.mem_filterMap.mp hm
  by_cases hc : (containsSub st.toList tbl.toList || (tablePartOf st).isNone) = true
      ∧ 1 < (columnPartOf st).length
  · rw [if_pos hc] at hsome
    obtain ⟨hb, hlen⟩ := hc
    refine ⟨tbl, st, htbl, hst, (Option.some.inj hsome).symm, ?_, hlen⟩
    cases ha : containsSub st.toList tbl.toList with
    | true => exact Or.inl rfl
    | false =>
      rw [ha, Bool.false_or] at hb
      exact Or.inr (Option.isNone_iff_eq_none.mp hb)
  · rw [if_neg hc] at hsome
    exact absurd hsome (by simp)

theorem foldl_min_le_init (l : List ℚ) : ∀ a : ℚ, l.foldl min a ≤ a := by
  induction l with
  | nil => intro a; simp
  | cons b l ih => intro a; exact le_trans (ih (min a b)) (min_le_left a b)

theorem foldl_min_le_of_mem (l : List ℚ) : ∀ (a x : ℚ), x ∈ l → l.foldl min a ≤ x := by
  induction l with
  | nil => intro a x hx; cases hx
  | cons b l ih =>
    intro a x hx
    rcases List.mem_cons.mp hx with h | h
    · subst h
      exact le_trans (foldl_min_le_init l (min a x)) (min_le_right a x)
    · exact ih (min a b) x h

theorem le_foldl_max_init (l : List ℚ) : ∀ a : ℚ, a ≤ l.foldl max a := by
  induction l with
  | nil => intro a; simp
  | cons b l ih => intro a; exact le_trans (le_max_left a b) (ih (max a b))

theorem le_foldl_max_of_mem (l : List ℚ) : ∀ (a x : ℚ), x ∈ l → x ≤ l.foldl max a := by
  induction l with
  | nil => intro a x hx; cases hx
  | cons b l ih =>
    intro a x hx
    rcases List.mem_cons.mp hx with h | h
    · subst h
      exact le_trans (le_max_right a x) (le_foldl_max_init l (max a x))
    · exact ih (max a b) x h

theorem sqlMinQ_bound (l : List ℚ) (x : ℚ) (hx : x ∈ l) :
    ∃ m, sqlMinQ l = some m ∧ m ≤ x := by
  cases l with
  | nil => cases hx
  | cons y ys =>
    refine ⟨ys.foldl min y, rfl, ?_⟩
    rcases List.mem_cons.mp hx with h | h
    · subst h; exact foldl_min_le_init ys x
    · exact foldl_min_le_of_mem ys y x h

theorem sqlMaxQ_bound (l : List ℚ) (x : ℚ) (hx : x ∈ l) :
    ∃ M, sqlMaxQ l = some M ∧ x ≤ M := by
  cases l with
  | nil => cases hx
  | cons y ys =>
    refine ⟨ys.foldl max y, rfl, ?_⟩
    rcases List.mem_cons.mp hx with h | h
    · subst h; exact le_foldl_max_init ys x
    · exact le_foldl_max_of_mem ys y x h

/-! ### Claims -/

/-- C1 (amended): for every `query_text` the SQL parser cannot parse, the
extractor returns the single-element error marker `["ERROR: <msg>"]` — a
non-empty result, not a result with zero elements — and it returns normally
(the model is a total function; the Python `except` swallows every
exception).  The claim's further assertion that such a query contributes
zero table:column references downstream is refuted by
`claim1_counterexample`: the marker survives the explode/split step as a
pseudo-reference with table name `ERROR`. -/
theorem claim1_amended (parse : SqlParse) (s e : String)
    (h : parse s = Except.error e) :
    getParsedFilteredColumnsinSQL parse s = ["ERROR: " ++ e] ∧
    getParsedFilteredColumnsinSQL parse s ≠ [] := by
  unfold getParsedFilteredColumnsinSQL
  rw [h]
  exact ⟨rfl, by simp⟩

/-- C1 witness: the amended theorem applied to a concrete failing parse. -/
theorem claim1_witness :
    parseErrStub "SELEC x FRO" = Except.error "boom" ∧
    getParsedFilteredColumnsinSQL parseErrStub "SELEC x FRO" = ["ERROR: boom"] :=
  ⟨rfl, (claim1_amended parseErrStub "SELEC x FRO" "boom" rfl).1⟩

/-- C1 counterexample: a query whose parse fails contributes ONE row to the
Column Summary — the group `("ERROR", " boom")` — not zero references as
the claim states: the `ERROR: boom` marker is exploded, split on `:` into
TableName `ERROR` and ColumnName ` boom`, and ` boom` passes the
`length(ColumnName) >= 1` filter. -/
theorem claim1_counterexample :
    summaryKeys (computeColSummary (computeQueryColStats parseErrStub
      [⟨"q1", "SELEC x FRO", getParsedFilteredColumnsinSQL parseErrStub "SELEC x FRO"⟩] []))
      = [("ERROR", " boom")] := by
  with_unfolding_all decide

/-- C2 (amended): the extractor attributes `columnPartOf st` to table `tbl`
iff the FULL token `st` contains `tbl` as a substring (`st.find(tbl) >= 0`)
or the token's table part is empty/absent — not, as the claim states, iff
the table part occurs as a substring of `tbl` — and only when the column
part is longer than one character.  Both directions of the membership
characterisation are stated against the code's actual condition. -/
theorem claim2_amended (parse : SqlParse) (sq : String) (r : ParseResult)
    (d : ColumnsDict) (hp : parse sq = Except.ok r) (hd : r.columnsDict = some d) :
    (∀ tbl st, tbl ∈ r.tables → st ∈ flattedCols d →
        (containsSub st.toList tbl.toList = true ∨ tablePartOf st = none) →
        1 < (columnPartOf st).length →
        (tbl ++ ":" ++ columnPartOf st) ∈ getParsedFilteredColumnsinSQL parse sq) ∧
    (∀ ref, ref ∈ getParsedFilteredColumnsinSQL parse sq →
        ∃ tbl st, tbl ∈ r.tables ∧ st ∈ flattedCols d ∧
          ref = tbl ++ ":" ++ columnPartOf st ∧
          (containsSub st.toList tbl.toList = true ∨ tablePartOf st = none) ∧
          1 < (columnPartOf st).length) := by
  have hg : getParsedFilteredColumnsinSQL parse sq
      = attributeColumns r.tables (flattedCols d) := by
    simp only [getParsedFilteredColumnsinSQL, hp, hd]
  constructor
  · intro tbl st h1 h2 h3 h4
    rw [hg]
    exact attributeColumns_mem_intro _ _ _ _ h1 h2 h3 h4
  · intro ref href
    rw [hg] at href
    exact attributeColumns_mem_elim _ _ _ href

/-- C2 witness: the amended characterisation applied to a concrete parse
with table `tab` and unqualified WHERE token `co`. -/
theorem claim2_witness :
    ("tab" ++ ":" ++ columnPartOf "co") ∈ getParsedFilteredColumnsinSQL parseWhereStub "q" :=
  (claim2_amended parseWhereStub "q" ⟨["tab"], some ⟨some ["co"], none, none⟩⟩
      ⟨some ["co"], none, none⟩ rfl rfl).1 "tab" "co" (by decide) (by decide)
    (Or.inr (by decide)) (by decide)

/-- C2 counterexample: the claim's rule disagrees with the code in both
directions.  For tables `["orders"]` and token `ord.cust_id` the claim's
condition holds (`table_part` `ord` is non-empty and a substring of
`orders`, and `cust_id` is longer than one character) yet the code emits
nothing, because `ord.cust_id` does not contain `orders`.  For tables
`["x1"]` and token `foo.x1bar` the claim's condition fails (`foo` is not a
substring of `x1`) yet the code emits `x1:x1bar`, because the full token
contains `x1`. -/
theorem claim2_counterexample :
    (specAttributesB "orders" "ord.cust_id" = true ∧
      1 < (columnPartOf "ord.cust_id").length ∧
      attributeColumns ["orders"] ["ord.cust_id"] = []) ∧
    (specAttributesB "x1" "foo.x1bar" = false ∧
      attributeColumns ["x1"] ["foo.x1bar"] = ["x1:x1bar"]) := by
  decide

/-- C3 (amended): a ParsedQuery whose `query_id` has NO matching Execution
Statistics Summary row is KEPT by the aggregation (the join of line 419 is
a LEFT JOIN, so non-matches survive with null statistics): each of its
references with a non-empty column part still contributes its
`(TableName, ColumnName)` group to the Column Summary, contrary to the
claim that such queries contribute zero rows. -/
theorem claim3_amended (parse : SqlParse) (pq : List ParsedQueryRow)
    (stats : List (String × QueryStats)) (q : ParsedQueryRow) (ref t c : String)
    (hq : q ∈ pq) (href : ref ∈ q.profiled_columns)
    (_hmiss : lookupStats stats q.query_id = none)
    (ht : splitColonTable ref = t) (hc : splitColonColumn ref = some c)
    (hlen : 1 ≤ c.length) :
    (t, c) ∈ summaryKeys (computeColSummary (computeQueryColStats parse pq stats)) := by
  have he : (ref, q.query_id, q.query_text) ∈ explodedParsedCols pq := by
    unfold explodedParsedCols
    exact List.mem_dedup.mpr
      (List.mem_flatMap.mpr ⟨q, hq, List.mem_map.mpr ⟨ref, href, rfl⟩⟩)
  have hrmem : flagsOf parse (step2Of stats (ref, q.query_id, q.query_text))
      ∈ computeQueryColStats parse pq stats := by
    unfold computeQueryColStats
    exact List.mem_map.mpr ⟨step2Of stats (ref, q.query_id, q.query_text),
      List.mem_dedup.mpr (List.mem_map.mpr ⟨_, he, rfl⟩), rfl⟩
  have hrT : (flagsOf parse (step2Of stats (ref, q.query_id, q.query_text))).TableName = t := ht
  have hrC : (flagsOf parse (step2Of stats (ref, q.query_id, q.query_text))).ColumnName
      = some c := hc
  have hkept : colNameKept (flagsOf parse
      (step2Of stats (ref, q.query_id, q.query_text))).ColumnName = true := by
    rw [hrC]
    simpa [colNameKept] using hlen
  have hkey : (t, c) ∈ summaryGroupKeys (computeQueryColStats parse pq stats) := by
    unfold summaryGroupKeys keptColStats
    apply List.mem_dedup.mpr
    apply List.mem_filterMap.mpr
    refine ⟨flagsOf parse (step2Of stats (ref, q.query_id, q.query_text)),
      List.mem_filter.mpr ⟨hrmem, hkept⟩, ?_⟩
    rw [hrC, hrT]
    rfl
  unfold computeColSummary summaryKeys
  exact List.mem_map.mpr ⟨_, List.mem_map.mpr ⟨(t, c), hkey, rfl⟩, rfl⟩

/-- C3 witness: the amended theorem at a concrete corpus — one parsed query
referencing `t1.ab`, an empty statistics table. -/
theorem claim3_witness :
    lookupStats ([] : List (String × QueryStats)) "q1" = none ∧
    ("t1", "ab") ∈ summaryKeys (computeColSummary (computeQueryColStats parseErrStub
      [⟨"q1", "txt", ["t1:ab"]⟩] [])) :=
  ⟨rfl, claim3_amended parseErrStub [⟨"q1", "txt", ["t1:ab"]⟩] []
    ⟨"q1", "txt", ["t1:ab"]⟩ "t1:ab" "t1" "ab"
    (by decide) (by decide) rfl (by decide) (by decide) (by decide)⟩

/-- C3 counterexample: with one parsed query whose `query_id` has no
statistics row, the Column Summary has ONE row, not zero as the claim
states. -/
theorem claim3_counterexample :
    lookupStats ([] : List (String × QueryStats)) "q1" = none ∧
    (computeColSummary (computeQueryColStats parseErrStub
      [⟨"q1", "txt", ["t1:ab"]⟩] [])).length = 1 := by
  with_unfolding_all decide

/-- Rows for the C4 witness: two summary rows of the same table with
`RawTotalRuntime` 10 and 30. -/
def claim4Rows : List ColSummaryRow :=
  [⟨"t", "c1", 0, 0, 0, 0, 0, 0, 1, some 10, none, none, none⟩,
    ⟨"t", "c2", 0, 0, 0, 0, 0, 0, 2, some 30, none, none, none⟩]

/-- C4 (confirmed): the scale normaliser is `computeScaled`, which applies
`scaleField` to each row for exactly the five numeric fields (first
conjunct).  For every row of the input whose field value is non-null, the
partition minimum `m` and maximum `M` over the row's `TableName` partition
exist, bracket the value, and the scaled output equals
`(value - m) / (M - m)` with `0` substituted when `M = m` (division by zero
is null in Spark and the `coalesce` turns it into 0); consequently the
scaled value lies in `[0, 1]`, and a row achieving the partition maximum
scales to `1` (or `0` in the degenerate `M = m` case). -/
theorem claim4_scale_bounds :
    (∀ rows : List ColSummaryRow, computeScaled rows = rows.map (fun r =>
      ⟨r, scaleField rows r (fun a => some a.QueryReferenceCount),
        scaleField rows r (fun a => a.RawTotalRuntime),
        scaleField rows r (fun a => a.AvgQueryDuration),
        scaleField rows r (fun a => a.TotalColumnOccurrencesForAllQueries),
        scaleField rows r (fun a => a.AvgColumnOccurrencesInQueryies)⟩)) ∧
    (∀ (rows : List ColSummaryRow) (r : ColSummaryRow)
        (f : ColSummaryRow → Option ℚ) (x : ℚ), r ∈ rows → f r = some x →
      ∃ m M, sqlMinQ (partitionVals rows r.TableName f) = some m ∧
        sqlMaxQ (partitionVals rows r.TableName f) = some M ∧ m ≤ x ∧ x ≤ M ∧
        scaleField rows r f = (if M = m then 0 else (x - m) / (M - m)) ∧
        0 ≤ scaleField rows r f ∧ scaleField rows r f ≤ 1 ∧
        (x = M → scaleField rows r f = if M = m then 0 else 1)) := by
  refine ⟨fun rows => rfl, ?_⟩
  intro rows r f x hr hx
  have hxin : x ∈ partitionVals rows r.TableName f := by
    unfold partitionVals
    exact List.mem_filterMap.mpr ⟨r, List.mem_filter.mpr ⟨hr, by simp⟩, hx⟩
  obtain ⟨m, hm, hmx⟩ := sqlMinQ_bound _ x hxin
  obtain ⟨M, hM, hxM⟩ := sqlMaxQ_bound _ x hxin
  have hmM : m ≤ M := le_trans hmx hxM
  have hval : scaleField rows r f = (if M = m then 0 else (x - m) / (M - m)) := by
    unfold scaleField
    rw [hx, hm, hM]
    by_cases hMm : M = m
    · rw [if_pos hMm, hMm]
      simp [nSub, nDiv, coalesce0, sub_self]
    · have hne : M - m ≠ 0 := sub_ne_zero.mpr hMm
      rw [if_neg hMm]
      simp [nSub, nDiv, coalesce0, hne]
  refine ⟨m, M, hm, hM, hmx, hxM, hval, ?_, ?_, ?_⟩
  · rw [hval]
    by_cases hMm : M = m
    · rw [if_pos hMm]
    · rw [if_neg hMm]
      have hlt : m < M := lt_of_le_of_ne hmM (fun h => hMm h.symm)
      exact div_nonneg (sub_nonneg.mpr hmx) (le_of_lt (sub_pos.mpr hlt))
  · rw [hval]
    by_cases hMm : M = m
    · rw [if_pos hMm]; exact zero_le_one
    · rw [if_neg hMm]
      have hlt : m < M := lt_of_le_of_ne hmM (fun h => hMm h.symm)
      exact (div_le_one (sub_pos.mpr hlt)).mpr (sub_le_sub_right hxM m)
  · intro hxM'
    rw [hval]
    by_cases hMm : M = m
    · rw [if_pos hMm, if_pos hMm]
    · rw [if_neg hMm, if_neg hMm, hxM']
      exact div_self (sub_ne_zero.mpr hMm)

/-- C4 witness: the bounds extracted from the theorem at a concrete
two-row partition. -/
theorem claim4_witness :
    0 ≤ scaleField claim4Rows (claim4Rows.getLastD ⟨"", "", 0, 0, 0, 0, 0, 0, 0,
        none, none, none, none⟩) (fun a => a.RawTotalRuntime) ∧
    scaleField claim4Rows (claim4Rows.getLastD ⟨"", "", 0, 0, 0, 0, 0, 0, 0,
        none, none, none, none⟩) (fun a => a.RawTotalRuntime) ≤ 1 := by
  obtain ⟨m, M, _, _, _, _, _, h6, h7, _⟩ :=
    claim4_scale_bounds.2 claim4Rows (claim4Rows.getLastD ⟨"", "", 0, 0, 0, 0, 0, 0, 0,
      none, none, none, none⟩) (fun a => a.RawTotalRuntime) 30
      (by with_unfolding_all decide) (by with_unfolding_all decide)
  exact ⟨h6, h7⟩

/-- C5 (amended): for a parseable statement with exactly one FROM table `t`
and a single unqualified WHERE column token `c` (no dot, length at least
two), the extractor yields exactly the one reference `t:c` — but its
filter flag is 0, NOT true as the claim states: `checkIfFilterColumn` is
invoked on the qualified name `t.c` (line 427), which can never equal the
unqualified token `c` the parser reports in its WHERE list. -/
theorem claim5_amended (parse : SqlParse) (sq t c : String)
    (hp : parse sq = Except.ok ⟨[t], some ⟨some [c], none, none⟩⟩)
    (hnd : ('.' : Char) ∉ c.toList) (hlen : 1 < c.length) :
    getParsedFilteredColumnsinSQL parse sq = [t ++ ":" ++ c] ∧
    checkIfFilterColumn parse sq (t ++ "." ++ c) = 0 := by
  have htp := tablePartOf_noDot c hnd
  have hcp := columnPartOf_noDot c hnd
  constructor
  · simp only [getParsedFilteredColumnsinSQL, hp]
    have hf : flattedCols ⟨some [c], none, none⟩ = [c] := by
      simp [flattedCols]
    rw [hf]
    unfold attributeColumns
    simp [htp, hcp, hlen]
  · simp only [checkIfFilterColumn, hp]
    have hne : ¬ (t ++ "." ++ c) = c := by
      intro h
      have hl := congrArg String.length h
      rw [String.length_append, String.length_append] at hl
      have : ("." : String).length = 1 := rfl
      omega
    simp [hne]

/-- C5 witness: the amended theorem at a concrete parse (table `tab`,
unqualified WHERE column `co`). -/
theorem claim5_witness :
    getParsedFilteredColumnsinSQL parseWhereStub "q" = ["tab" ++ ":" ++ "co"] ∧
    checkIfFilterColumn parseWhereStub "q" ("tab" ++ "." ++ "co") = 0 :=
  claim5_amended parseWhereStub "q" "tab" "co" rfl (by decide) (by decide)

/-- C5 counterexample: in the claim's own scenario (one table `tab`, one
unqualified WHERE column `co`) the pipeline produces the single reference
`tab:co`, but `checkIfFilterColumn` on the qualified name `tab.co` returns
0, so `isUsedInFilter` is NOT true as the claim asserts. -/
theorem claim5_counterexample :
    getParsedFilteredColumnsinSQL parseWhereStub "q" = ["tab:co"] ∧
    checkIfFilterColumn parseWhereStub "q" ("tab" ++ "." ++ "co") ≠ 1 := by
  decide

/-- C6 (amended): `NumberOfColumnOccurrences` equals the number of
non-overlapping case-sensitive occurrences of the column name in the query
text — NOT that count minus one — because `size(split(text, col))` is the
occurrence count PLUS one.  Consequently the value is never negative: the
claimed `-1`-to-`0` clamping does not exist in the code and is not needed. -/
theorem claim6_amended (qt c : String) :
    numberOfColumnOccurrences qt c = (countNonOverlap c.toList qt.toList : Int) ∧
    0 ≤ numberOfColumnOccurrences qt c := by
  unfold numberOfColumnOccurrences
  rw [splitParts_length]
  constructor
  · push_cast
    omega
  · push_cast
    omega

/-- C6 counterexample: for query text `ab` and column `ab` the pipeline row
carries `NumberOfColumnOccurrences = 1` (the occurrence count), while the
claim's formula — substring count minus one, clamped at zero — gives 0. -/
theorem claim6_counterexample :
    (computeQueryColStats parseErrStub [⟨"q1", "ab", ["t:ab"]⟩] []).map
        (fun r => r.NumberOfColumnOccurrences) = [some 1] ∧
    (specSubstringCount "ab" "ab" : Int) - 1 = 0 ∧ (1 : Int) ≠ 0 := by
  decide

/-- C7 (amended): re-running the parse-and-upsert step on an existing
`query_id` overwrites that row's `query_text` but KEEPS its old
`profiled_columns` — the `WHEN MATCHED` branch of the MERGE (line 398)
updates only `query_text` — so after the upsert `profiled_columns` is NOT
recomputed from the new text (see `claim7_counterexample`). -/
theorem claim7_amended (target source : List ParsedQueryRow) (t s : ParsedQueryRow)
    (ht : t ∈ target)
    (hs : source.find? (fun x => x.query_id = t.query_id) = some s) :
    (⟨t.query_id, s.query_text, t.profiled_columns⟩ : ParsedQueryRow) ∈
      mergeParsedQueries target source := by
  unfold mergeParsedQueries
  apply List.mem_append_left
  apply List.mem_map.mpr
  refine ⟨t, ht, ?_⟩
  rw [hs]

/-- C7 witness: the amended theorem at a concrete matched upsert. -/
theorem claim7_witness :
    (⟨"a", "n", ["x:yz"]⟩ : ParsedQueryRow) ∈
      mergeParsedQueries [⟨"a", "o", ["x:yz"]⟩] [⟨"a", "n", []⟩] :=
  claim7_amended [⟨"a", "o", ["x:yz"]⟩] [⟨"a", "n", []⟩]
    ⟨"a", "o", ["x:yz"]⟩ ⟨"a", "n", []⟩ (by decide) (by decide)

/-- C7 counterexample: re-parsing query `q` with new text whose extraction
is `["t:bb"]` leaves the stored row with the NEW text but the OLD
`profiled_columns` `["t:aa"]`, which differs from the extraction of the
stored text — refuting the claim that references are recomputed on
upsert. -/
theorem claim7_counterexample :
    mergeParsedQueries [⟨"q", "old", ["t:aa"]⟩]
        (newParsed parseBbStub [⟨"q", 1, "new text", "FINISHED", "SELECT", 1⟩])
      = [⟨"q", "new text", ["t:aa"]⟩] ∧
    getParsedFilteredColumnsinSQL parseBbStub "new text" = ["t:bb"] ∧
    (["t:aa"] : List String) ≠ ["t:bb"] := by
  with_unfolding_all decide

/-- C8 (amended): the seven persisted-state steps of a profiling run
publish the Column Summary at step 6 and the Scaled Summary at step 7, so a
failure during any of steps 1-6 (leaving only the first `k ≤ 5` steps
applied) touches neither output, and a failure during step 7 (`k ≤ 6`)
leaves the Scaled Summary untouched; but a failure BETWEEN the two
publishes (exactly `k = 6`) leaves a freshly overwritten Column Summary
next to the stale Scaled Summary, so the claim that a failed run leaves
BOTH previously published tables untouched is refuted by
`claim8_counterexample`. -/
theorem claim8_amended (parse : SqlParse) (fetched : List RawQueryRow)
    (s : PipelineState) (k : Nat) :
    (k ≤ 5 → (runPrefix parse fetched k s).colSummary = s.colSummary ∧
      (runPrefix parse fetched k s).scaledResults = s.scaledResults) ∧
    (k ≤ 6 → (runPrefix parse fetched k s).scaledResults = s.scaledResults) := by
  constructor
  · intro hk
    interval_cases k <;> exact ⟨rfl, rfl⟩
  · intro hk
    interval_cases k <;> rfl

/-- C8 witness: the amended theorem at `k = 6` — the Scaled Summary is
untouched when the last step fails. -/
theorem claim8_witness :
    (runPrefix parseErrStub [] 6 state0).scaledResults = state0.scaledResults :=
  (claim8_amended parseErrStub [] state0 6).2 (by decide)

/-- C8 counterexample: a run that fails after step 6 (the Column Summary
publish) but before step 7 leaves a CHANGED Column Summary while the
Scaled Summary keeps its previous contents — a partial overwrite of the
pair, contrary to the claim. -/
theorem claim8_counterexample :
    (runPrefix parseT1Stub fetchedOne 6 state0).colSummary ≠ state0.colSummary ∧
    (runPrefix parseT1Stub fetchedOne 6 state0).scaledResults = state0.scaledResults := by
  with_unfolding_all decide

/-- C9 (amended): a second run over an unchanged corpus re-fetches the same
records and APPENDS them to `raw_query_history_statistics` again (the
ingestion of lines 345-358 is INSERT, not idempotent): after the second run
every re-fetched query's raw row count has grown by its count in the batch,
which doubles `TotalQueryRuns` and `DurationTimesRuns` and hence changes
the Column Summary — the outputs are NOT byte-identical (see
`claim9_counterexample`). -/
theorem claim9_amended (parse : SqlParse) (fetched : List RawQueryRow)
    (s : PipelineState) (qid : String) :
    (runAll parse fetched s).rawStats
      = s.rawStats ++ fetched.filter (fun r => r.statement_type = "SELECT") ∧
    countRows (runAll parse fetched (runAll parse fetched s)).rawStats qid
      = countRows (runAll parse fetched s).rawStats qid
        + countRows (fetched.filter (fun r => r.statement_type = "SELECT")) qid := by
  have hrw : ∀ st : PipelineState, (runAll parse fetched st).rawStats
      = st.rawStats ++ fetched.filter (fun r => r.statement_type = "SELECT") :=
    fun st => rfl
  refine ⟨hrw s, ?_⟩
  rw [hrw (runAll parse fetched s)]
  unfold countRows
  rw [List.filter_append, List.length_append]

/-- C9 counterexample: running the full pipeline twice on the same
one-query batch changes the Column Summary (its `RawTotalRuntime` doubles
from 10 to 20), so the outputs are not byte-identical. -/
theorem claim9_counterexample :
    (runAll parseT1Stub fetchedOne (runAll parseT1Stub fetchedOne state0)).colSummary
      ≠ (runAll parseT1Stub fetchedOne state0).colSummary := by
  with_unfolding_all decide

/-- C10 (confirmed): the summary-building SQL writes to the FIXED
identifier `delta_optimizer.query_summary_statistics` regardless of the
configured database name (first conjunct), while the aggregation join
reads `{database_name}.query_summary_statistics`; hence the join consumes
the summary just published by the same run — for every prior store state —
exactly when `database_name = "delta_optimizer"`. -/
theorem claim10_write_read_mismatch :
    (∀ db : String,
      querySummaryWriteTarget db = "delta_optimizer.query_summary_statistics") ∧
    (∀ (db : String) (content : List (String × QueryStats)),
      (∀ store : TableStore,
          readStatsForJoin db (publishQuerySummaryAt db store content) = some content)
        ↔ db = "delta_optimizer") := by
  constructor
  · intro db
    rfl
  · intro db content
    constructor
    · intro h
      have h0 := h (fun _ => none)
      unfold readStatsForJoin publishQuerySummaryAt at h0
      by_cases hk : querySummaryReadSource db = querySummaryWriteTarget db
      · unfold querySummaryReadSource querySummaryWriteTarget at hk
        have hdl : ("delta_optimizer.query_summary_statistics" : String)
            = "delta_optimizer" ++ ".query_summary_statistics" := rfl
        rw [hdl] at hk
        have hdata := congrArg String.data hk
        rw [String.data_append, String.data_append] at hdata
        have hd2 := List.append_cancel_right hdata
        cases db with
        | mk l => exact congrArg String.mk hd2
      · rw [if_neg hk] at h0
        exact absurd h0 (by simp)
    · intro h store
      subst h
      unfold readStatsForJoin publishQuerySummaryAt
      have hkey : querySummaryReadSource "delta_optimizer"
          = querySummaryWriteTarget "delta_optimizer" := rfl
      rw [if_pos hkey]

/-- C10 witness: with the default database name the join reads exactly the
freshly published summary. -/
theorem claim10_witness :
    readStatsForJoin "delta_optimizer"
      (publishQuerySummaryAt "delta_optimizer" (fun _ => none) []) = some [] :=
  (claim10_write_read_mismatch.2 "delta_optimizer" []).mpr rfl (fun _ => none)
